import Mathlib

/-!
Verification development for the EarVan real-time audio engine
(`audioEngine.ts`): a shallow embedding of the engine's data model,
DSP-parameter resolution and lifecycle operations, together with theorems
settling the specification's claims about it.

Modelling conventions:
- JavaScript numbers are embedded as `Rat` (all constants in the source are
  exact decimals).
- A Web Audio `AudioParam` is embedded as a pair of a `target` value (set by
  `setTargetAtTime`) and a `live` value (the instantaneous value the platform
  ramps toward the target); engine code only ever sets targets, direct
  `.value =` assignments set both.
- Nullable node references are embedded as `Bool` presence flags / `Option`
  fields; the five EQ filters, built together, are a `BandMap` of params and
  their joint presence is `nodesBuilt`.
- The `AudioContext` is `Option CtxState` (`none` = the field is null).
-/

/-- The five fixed EQ band center frequencies (`EQ_FREQUENCIES`). -/
inductive EQFrequency
  | f500
  | f1000
  | f2000
  | f4000
  | f8000
deriving DecidableEq, Repr

/-- The three environment modes (`EnvironmentMode` in `types.ts`). -/
inductive EnvironmentMode
  | QUIET
  | CONVERSATION
  | NOISY
deriving DecidableEq, Repr

/-- A record indexed by the five EQ band frequencies (a TS object literal
with keys 500/1000/2000/4000/8000). -/
structure BandMap (α : Type) where
  b500 : α
  b1000 : α
  b2000 : α
  b4000 : α
  b8000 : α
deriving DecidableEq, Repr

/-- Look up the entry of a `BandMap` at a band frequency. -/
def BandMap.get {α : Type} (m : BandMap α) : EQFrequency → α
  | .f500 => m.b500
  | .f1000 => m.b1000
  | .f2000 => m.b2000
  | .f4000 => m.b4000
  | .f8000 => m.b8000

/-- Build a `BandMap` from a function on band frequencies (used to embed
`eqFilters.forEach`, which visits the five bands in order). -/
def BandMap.ofFun {α : Type} (f : EQFrequency → α) : BandMap α :=
  ⟨f .f500, f .f1000, f .f2000, f .f4000, f .f8000⟩

/-- A hearing profile (`HearingProfile` in `types.ts`): a display name and a
gain in dB for each of the five bands. -/
structure HearingProfile where
  name : String
  eqBands : BandMap Rat
deriving DecidableEq, Repr

/-- An environment DSP preset (one entry of `ENV_PRESETS`). -/
structure EnvPreset where
  gainOffset : Rat
  eqOffsets : BandMap (Option Rat)
  highpassFreq : Rat
  compressorThreshold : Rat
  compressorRatio : Rat
deriving DecidableEq, Repr

/-- The `ENV_PRESETS` table of `audioEngine.ts`. -/
def ENV_PRESETS : EnvironmentMode → EnvPreset
  | .QUIET =>
      { gainOffset := 0
        eqOffsets := ⟨none, none, none, none, none⟩
        highpassFreq := 1
        compressorThreshold := -24
        compressorRatio := 4 }
  | .CONVERSATION =>
      { gainOffset := 0.15
        eqOffsets := ⟨some (-5), some 6, some 8, some 4, some (-2)⟩
        highpassFreq := 150
        compressorThreshold := -30
        compressorRatio := 6 }
  | .NOISY =>
      { gainOffset := 0.25
        eqOffsets := ⟨some (-10), some 2, some 6, some 4, some (-6)⟩
        highpassFreq := 400
        compressorThreshold := -20
        compressorRatio := 10 }

/-- The `MILD_LOSS_BOOSTS` table. -/
def MILD_LOSS_BOOSTS : BandMap (Option Rat) :=
  ⟨none, none, some 3, some 5, some 6⟩

/-- The `SPEECH_FOCUS_BOOSTS` table. -/
def SPEECH_FOCUS_BOOSTS : BandMap (Option Rat) :=
  ⟨some (-3), some 6, some 8, some 4, none⟩

/-- The `BALANCED_BOOSTS` table. -/
def BALANCED_BOOSTS : BandMap (Option Rat) :=
  ⟨some 1, some 2, some 2, some 1, none⟩

/-- Whether `needle` occurs as a contiguous sublist of the first list,
starting at its head. -/
def listHasPrefix : List Char → List Char → Bool
  | _, [] => true
  | [], _ :: _ => false
  | a :: as, b :: bs => a == b && listHasPrefix as bs

/-- Whether `needle` occurs as a contiguous sublist anywhere in `hay`. -/
def listHasSub : List Char → List Char → Bool
  | [], needle => needle.isEmpty
  | a :: t, needle => listHasPrefix (a :: t) needle || listHasSub t needle

/-- JavaScript `String.prototype.includes` (substring containment). -/
def jsIncludes (hay needle : String) : Bool :=
  listHasSub hay.data needle.data

/-- JavaScript `String.prototype.toLowerCase` (the names involved are ASCII,
where the two coincide). -/
def jsToLowerCase (s : String) : String :=
  ⟨s.data.map Char.toLower⟩

/-- The profile-classification boost chosen in `_applySettings` by keyword
matching on the lowercased profile name, defaulting to 0 for bands absent
from the selected table and to 0 when no keyword matches. -/
def specificBoost (profileName : String) (freq : EQFrequency) : Rat :=
  let n := jsToLowerCase profileName
  if jsIncludes n "mild" then (MILD_LOSS_BOOSTS.get freq).getD 0
  else if jsIncludes n "speech" then (SPEECH_FOCUS_BOOSTS.get freq).getD 0
  else if jsIncludes n "balanced" then (BALANCED_BOOSTS.get freq).getD 0
  else 0

/-- The clamp `Math.max(lo, Math.min(hi, x))` used for total band gain. -/
def clamp (lo hi x : Rat) : Rat :=
  max lo (min hi x)

/-- A Web Audio `AudioParam`: a ramp target and the current (live) value. -/
structure AParam where
  target : Rat
  live : Rat
deriving DecidableEq, Repr

/-- Embedding of `AudioParam.setTargetAtTime`: the target changes, the live
value keeps ramping from where it is. -/
def AParam.setTargetAtTime (p : AParam) (v : Rat) : AParam :=
  { p with target := v }

/-- Embedding of a direct `param.value = v` assignment at node creation. -/
def AParam.setValue (_ : AParam) (v : Rat) : AParam :=
  ⟨v, v⟩

/-- The state of a non-closed `AudioContext` (a closed context is only ever
paired with setting the field to null, so it is represented by `none`). -/
inductive CtxState
  | running
  | suspended
deriving DecidableEq, Repr

/-- The mutable state of an `AudioEngine` instance. Param fields embed the
gains/frequencies of the nodes built by `initialize`; they are meaningful
only when `nodesBuilt` is true (in the source the node references are null
before the first `initialize`). -/
structure EngineState where
  context : Option CtxState
  streamActive : Bool
  micSource : Bool
  testSource : Bool
  nodesBuilt : Bool
  gainParam : AParam
  highpassFreq : AParam
  eqGains : BandMap AParam
  compressorThreshold : AParam
  compressorRatio : AParam
  analyserData : List Nat
  isRunningFlag : Bool
  currentMode : EnvironmentMode
  currentProfile : Option HearingProfile
  isBypassed : Bool
  isTesting : Bool
deriving DecidableEq, Repr

/-- The state of a freshly constructed `new AudioEngine()`: every node and
the context are null, mode is QUIET, no profile, not bypassed, not testing. -/
def initState : EngineState :=
  { context := none
    streamActive := false
    micSource := false
    testSource := false
    nodesBuilt := false
    gainParam := ⟨0, 0⟩
    highpassFreq := ⟨0, 0⟩
    eqGains := ⟨⟨0, 0⟩, ⟨0, 0⟩, ⟨0, 0⟩, ⟨0, 0⟩, ⟨0, 0⟩⟩
    compressorThreshold := ⟨0, 0⟩
    compressorRatio := ⟨0, 0⟩
    analyserData := []
    isRunningFlag := false
    currentMode := .QUIET
    currentProfile := none
    isBypassed := false
    isTesting := false }

namespace AudioEngine

/-- Embedding of the per-band resolution inside `_applySettings` (the
non-bypassed branch of the `eqFilters.forEach` body): profile gain plus
keyword-selected boost plus mode offset, clamped to [-18, 18]. -/
def resolveBandGain (p : HearingProfile) (mode : EnvironmentMode)
    (freq : EQFrequency) : Rat :=
  clamp (-18) 18
    (p.eqBands.get freq + specificBoost p.name freq
      + ((ENV_PRESETS mode).eqOffsets.get freq).getD 0)

/-- Embedding of `AudioEngine._applySettings`: no-op unless the context is
non-null and a profile has been set; otherwise writes new ramp targets for
the high-pass frequency, the five EQ gains, the compressor threshold/ratio
and the master gain (each guarded, in the source, by the node reference
being non-null, i.e. by `nodesBuilt`). -/
def applySettings (s : EngineState) : EngineState :=
  match s.context, s.currentProfile with
  | some _, some p =>
      if s.nodesBuilt then
        { s with
          highpassFreq := s.highpassFreq.setTargetAtTime
            (if s.isBypassed then 1 else (ENV_PRESETS s.currentMode).highpassFreq)
          eqGains := BandMap.ofFun fun freq =>
            (s.eqGains.get freq).setTargetAtTime
              (if s.isBypassed then 0 else resolveBandGain p s.currentMode freq)
          compressorThreshold := s.compressorThreshold.setTargetAtTime
            (if s.isBypassed then -60 else (ENV_PRESETS s.currentMode).compressorThreshold)
          compressorRatio := s.compressorRatio.setTargetAtTime
            (if s.isBypassed then 1 else (ENV_PRESETS s.currentMode).compressorRatio)
          gainParam := s.gainParam.setTargetAtTime
            (if s.isBypassed then 0 else 1 + (ENV_PRESETS s.currentMode).gainOffset) }
      else s
  | _, _ => s

/-- Embedding of `AudioEngine._attachMicrophone` on the happy path (the
device is available): no-op when the context is null; otherwise stops and
discards any test source, (re)acquires the mic stream when absent or
inactive, and connects a mic source node. -/
def attachMicrophone (s : EngineState) : EngineState :=
  if s.context = none then s
  else
    let s1 := if s.testSource then { s with testSource := false, isTesting := false } else s
    let s2 := if ¬ s1.streamActive then { s1 with streamActive := true } else s1
    { s2 with micSource := true }

/-- Embedding of `AudioEngine.initialize` (happy path): with a context,
resume it when suspended and set the running flag; with no context, build
the node graph at its power-on parameter values, attach the microphone and
set the running flag. -/
def init (s : EngineState) : EngineState :=
  match s.context with
  | some cs =>
      let s1 := if cs = CtxState.suspended then { s with context := some CtxState.running } else s
      { s1 with isRunningFlag := true }
  | none =>
      let s1 : EngineState :=
        { s with
          context := some CtxState.running
          nodesBuilt := true
          gainParam := ⟨1, 1⟩
          highpassFreq := ⟨1, 1⟩
          eqGains := ⟨⟨0, 0⟩, ⟨0, 0⟩, ⟨0, 0⟩, ⟨0, 0⟩, ⟨0, 0⟩⟩
          compressorThreshold := ⟨-24, -24⟩
          compressorRatio := ⟨4, 4⟩
          analyserData := List.replicate 512 0 }
      let s2 := attachMicrophone s1
      { s2 with isRunningFlag := true }

/-- Embedding of `AudioEngine.start`. -/
def start (s : EngineState) : EngineState :=
  applySettings { init s with isBypassed := false }

/-- Embedding of `AudioEngine.suspend`. -/
def suspend (s : EngineState) : EngineState :=
  let s1 := if s.context = some CtxState.running
    then { s with context := some CtxState.suspended } else s
  { s1 with isRunningFlag := false, isBypassed := true }

/-- Embedding of `AudioEngine.destroy`: stops the mic stream and any test
source, closes and nulls the context, nulls the mic source and clears the
running/testing flags. The filter/compressor/analyser node fields are NOT
nulled by the source, so `nodesBuilt`, the params and the analyser's
retained data are unchanged. -/
def destroy (s : EngineState) : EngineState :=
  { s with
    streamActive := false
    testSource := false
    context := none
    micSource := false
    isRunningFlag := false
    isTesting := false }

/-- Embedding of `AudioEngine.startTestAudio`: no-op without a context or
while already testing; otherwise disconnects the mic source and connects a
looped pink-noise buffer source in its place. No stage parameter is
touched. -/
def startTestAudio (s : EngineState) : EngineState :=
  if s.context = none ∨ s.isTesting then s
  else { s with isTesting := true, micSource := false, testSource := true }

/-- Embedding of `AudioEngine.stopTestAudio`: stops and discards the test
source, then re-attaches the microphone. No stage parameter is touched. -/
def stopTestAudio (s : EngineState) : EngineState :=
  attachMicrophone { s with isTesting := false, testSource := false }

/-- Embedding of `AudioEngine.setProfile`. -/
def setProfile (p : HearingProfile) (s : EngineState) : EngineState :=
  applySettings { s with currentProfile := some p }

/-- Embedding of `AudioEngine.setEnvironment`. -/
def setEnvironment (m : EnvironmentMode) (s : EngineState) : EngineState :=
  applySettings { s with currentMode := m }

/-- Embedding of `AudioEngine.setBypass`. -/
def setBypass (b : Bool) (s : EngineState) : EngineState :=
  applySettings { s with isBypassed := b }

/-- Embedding of `AudioEngine.setMasterVolume`: when the gain node and the
context exist, sets the master-gain ramp target to the value clamped to
[0, 4]. -/
def setMasterVolume (v : Rat) (s : EngineState) : EngineState :=
  if s.nodesBuilt ∧ s.context ≠ none then
    { s with gainParam := s.gainParam.setTargetAtTime (max 0 (min 4 v)) }
  else s

/-- Embedding of `AudioEngine.isRunning`. -/
def isRunning (s : EngineState) : Bool :=
  s.isRunningFlag && s.context = some CtxState.running

/-- Embedding of `AudioEngine.getAnalyser` composed with a frequency-data
read: the analyser node reference when it exists (its retained
magnitude buffer), `none` when the node was never built. -/
def getAnalyser (s : EngineState) : Option (List Nat) :=
  if s.nodesBuilt then some s.analyserData else none

/-- Platform model (Web Audio rendering thread), not engine code: while the
context is running, each rendered quantum refreshes the analyser's
magnitude buffer with current signal data; a suspended or closed context
renders nothing, so the analyser retains its previous buffer. -/
def audioFrame (data : List Nat) (s : EngineState) : EngineState :=
  if s.context = some CtxState.running ∧ s.nodesBuilt then
    { s with analyserData := data }
  else s

end AudioEngine

/-- A caller-visible operation on the engine (plus the platform's analyser
refresh), for stating reachability of engine states. -/
inductive Op
  | start
  | suspend
  | destroy
  | startTestAudio
  | stopTestAudio
  | setProfile (p : HearingProfile)
  | setEnvironment (m : EnvironmentMode)
  | setBypass (b : Bool)
  | setMasterVolume (v : Rat)
  | audioFrame (data : List Nat)

/-- Interpret one operation. -/
def stepOp : Op → EngineState → EngineState
  | .start => AudioEngine.start
  | .suspend => AudioEngine.suspend
  | .destroy => AudioEngine.destroy
  | .startTestAudio => AudioEngine.startTestAudio
  | .stopTestAudio => AudioEngine.stopTestAudio
  | .setProfile p => AudioEngine.setProfile p
  | .setEnvironment m => AudioEngine.setEnvironment m
  | .setBypass b => AudioEngine.setBypass b
  | .setMasterVolume v => AudioEngine.setMasterVolume v
  | .audioFrame d => AudioEngine.audioFrame d

/-- Run a sequence of operations from a state. -/
def run (ops : List Op) (s : EngineState) : EngineState :=
  ops.foldl (fun t op => stepOp op t) s

/-- The stage parameters with audible effect: master gain, high-pass
frequency, the five EQ band gains, and the compressor threshold and ratio
(targets and live values). -/
structure StageParams where
  gain : AParam
  highpass : AParam
  eq : BandMap AParam
  threshold : AParam
  compRatio : AParam
deriving DecidableEq, Repr

/-- Project the stage parameters out of an engine state. -/
def stageParams (s : EngineState) : StageParams :=
  ⟨s.gainParam, s.highpassFreq, s.eqGains, s.compressorThreshold, s.compressorRatio⟩

/-- The profile of the spec's worked example. -/
def speechProfile : HearingProfile :=
  ⟨"Speech Focus Profile", ⟨-2, 4, 6, 4, 0⟩⟩

/-- A profile whose name matches none of the three classification keywords. -/
def customProfile : HearingProfile :=
  ⟨"My Custom", ⟨1, -2, 3, 0, 5⟩⟩

/-- An engine that has been started (no profile set yet). -/
def engineOn : EngineState :=
  AudioEngine.start initState

/-- A started engine with the custom profile applied. -/
def engineWithProfile : EngineState :=
  AudioEngine.setProfile customProfile engineOn

/-- A reachable Running state with a profile set. -/
def runningState : EngineState :=
  run [Op.start, Op.setProfile customProfile] initState

/-- A reachable Running state whose caller has switched bypass on. -/
def bypassedRunningState : EngineState :=
  run [Op.start, Op.setProfile speechProfile, Op.setBypass true] initState

/-- A running engine whose analyser last captured a non-silent spectrum. -/
def capturedState : EngineState :=
  AudioEngine.audioFrame [200, 180, 90] (run [Op.start, Op.setProfile speechProfile] initState)

/-- The non-silent engine immediately after suspension. -/
def capturedSuspendedState : EngineState :=
  AudioEngine.suspend capturedState

/-- The engine state of the spec's worked example: speech-focus profile,
CONVERSATION mode, running, not bypassed. -/
def scenarioState : EngineState :=
  AudioEngine.setEnvironment .CONVERSATION
    (AudioEngine.setProfile speechProfile (AudioEngine.start initState))

/-- The worked-example engine with bypass switched on. -/
def scenarioBypassedState : EngineState :=
  AudioEngine.setBypass true scenarioState

@[simp]
theorem BandMap.get_ofFun {α : Type} (f : EQFrequency → α) (freq : EQFrequency) :
    (BandMap.ofFun f).get freq = f freq := by
  cases freq <;> rfl

namespace AudioEngine


theorem applySettings_context (s : EngineState) :
    (applySettings s).context = s.context := by
  obtain ⟨ctx, sa, mic, ts, nb, gp, hpf, eqg, cth, crt, ad, irf, cm, cp, ib, it⟩ := s
  cases ctx <;> cases cp <;> cases nb <;> rfl

theorem applySettings_currentProfile (s : EngineState) :
    (applySettings s).currentProfile = s.currentProfile := by
  obtain ⟨ctx, sa, mic, ts, nb, gp, hpf, eqg, cth, crt, ad, irf, cm, cp, ib, it⟩ := s
  cases ctx <;> cases cp <;> cases nb <;> rfl

theorem applySettings_currentMode (s : EngineState) :
    (applySettings s).currentMode = s.currentMode := by
  obtain ⟨ctx, sa, mic, ts, nb, gp, hpf, eqg, cth, crt, ad, irf, cm, cp, ib, it⟩ := s
  cases ctx <;> cases cp <;> cases nb <;> rfl

theorem applySettings_isBypassed (s : EngineState) :
    (applySettings s).isBypassed = s.isBypassed := by
  obtain ⟨ctx, sa, mic, ts, nb, gp, hpf, eqg, cth, crt, ad, irf, cm, cp, ib, it⟩ := s
  cases ctx <;> cases cp <;> cases nb <;> rfl

theorem applySettings_isRunningFlag (s : EngineState) :
    (applySettings s).isRunningFlag = s.isRunningFlag := by
  obtain ⟨ctx, sa, mic, ts, nb, gp, hpf, eqg, cth, crt, ad, irf, cm, cp, ib, it⟩ := s
  cases ctx <;> cases cp <;> cases nb <;> rfl

theorem applySettings_nodesBuilt (s : EngineState) :
    (applySettings s).nodesBuilt = s.nodesBuilt := by
  obtain ⟨ctx, sa, mic, ts, nb, gp, hpf, eqg, cth, crt, ad, irf, cm, cp, ib, it⟩ := s
  cases ctx <;> cases cp <;> cases nb <;> rfl

theorem applySettings_isTesting (s : EngineState) :
    (applySettings s).isTesting = s.isTesting := by
  obtain ⟨ctx, sa, mic, ts, nb, gp, hpf, eqg, cth, crt, ad, irf, cm, cp, ib, it⟩ := s
  cases ctx <;> cases cp <;> cases nb <;> rfl

theorem applySettings_analyserData (s : EngineState) :
    (applySettings s).analyserData = s.analyserData := by
  obtain ⟨ctx, sa, mic, ts, nb, gp, hpf, eqg, cth, crt, ad, irf, cm, cp, ib, it⟩ := s
  cases ctx <;> cases cp <;> cases nb <;> rfl

theorem applySettings_of_none_profile (s : EngineState)
    (hp : s.currentProfile = none) : applySettings s = s := by
  obtain ⟨ctx, sa, mic, ts, nb, gp, hpf, eqg, cth, crt, ad, irf, cm, cp, ib, it⟩ := s
  subst hp
  cases ctx <;> rfl

theorem applySettings_of_none_context (s : EngineState)
    (hc : s.context = none) : applySettings s = s := by
  obtain ⟨ctx, sa, mic, ts, nb, gp, hpf, eqg, cth, crt, ad, irf, cm, cp, ib, it⟩ := s
  subst hc
  cases cp <;> rfl

theorem applySettings_eq (s : EngineState) (p : HearingProfile)
    (hc : s.context ≠ none) (hp : s.currentProfile = some p)
    (hn : s.nodesBuilt = true) :
    applySettings s =
      { s with
        highpassFreq := s.highpassFreq.setTargetAtTime
          (if s.isBypassed then 1 else (ENV_PRESETS s.currentMode).highpassFreq)
        eqGains := BandMap.ofFun fun freq =>
          (s.eqGains.get freq).setTargetAtTime
            (if s.isBypassed then 0 else resolveBandGain p s.currentMode freq)
        compressorThreshold := s.compressorThreshold.setTargetAtTime
          (if s.isBypassed then -60 else (ENV_PRESETS s.currentMode).compressorThreshold)
        compressorRatio := s.compressorRatio.setTargetAtTime
          (if s.isBypassed then 1 else (ENV_PRESETS s.currentMode).compressorRatio)
        gainParam := s.gainParam.setTargetAtTime
          (if s.isBypassed then 0 else 1 + (ENV_PRESETS s.currentMode).gainOffset) } := by
  obtain ⟨ctx, sa, mic, ts, nb, gp, hpf, eqg, cth, crt, ad, irf, cm, cp, ib, it⟩ := s
  subst hp
  subst hn
  rcases ctx with _ | c
  · exact absurd rfl hc
  · rfl

theorem applySettings_idem (s : EngineState) :
    applySettings (applySettings s) = applySettings s := by
  obtain ⟨ctx, sa, mic, ts, nb, gp, hpf, eqg, cth, crt, ad, irf, cm, cp, ib, it⟩ := s
  cases ctx <;> cases cp <;> cases nb <;> rfl

theorem attachMicrophone_stage (s : EngineState) :
    stageParams (attachMicrophone s) = stageParams s := by
  obtain ⟨ctx, sa, mic, ts, nb, gp, hpf, eqg, cth, crt, ad, irf, cm, cp, ib, it⟩ := s
  cases ctx <;> cases ts <;> cases sa <;> rfl

theorem attachMicrophone_context (s : EngineState) :
    (attachMicrophone s).context = s.context := by
  obtain ⟨ctx, sa, mic, ts, nb, gp, hpf, eqg, cth, crt, ad, irf, cm, cp, ib, it⟩ := s
  cases ctx <;> cases ts <;> cases sa <;> rfl

theorem attachMicrophone_nodesBuilt (s : EngineState) :
    (attachMicrophone s).nodesBuilt = s.nodesBuilt := by
  obtain ⟨ctx, sa, mic, ts, nb, gp, hpf, eqg, cth, crt, ad, irf, cm, cp, ib, it⟩ := s
  cases ctx <;> cases ts <;> cases sa <;> rfl

theorem attachMicrophone_currentProfile (s : EngineState) :
    (attachMicrophone s).currentProfile = s.currentProfile := by
  obtain ⟨ctx, sa, mic, ts, nb, gp, hpf, eqg, cth, crt, ad, irf, cm, cp, ib, it⟩ := s
  cases ctx <;> cases ts <;> cases sa <;> rfl

theorem attachMicrophone_currentMode (s : EngineState) :
    (attachMicrophone s).currentMode = s.currentMode := by
  obtain ⟨ctx, sa, mic, ts, nb, gp, hpf, eqg, cth, crt, ad, irf, cm, cp, ib, it⟩ := s
  cases ctx <;> cases ts <;> cases sa <;> rfl

theorem attachMicrophone_isBypassed (s : EngineState) :
    (attachMicrophone s).isBypassed = s.isBypassed := by
  obtain ⟨ctx, sa, mic, ts, nb, gp, hpf, eqg, cth, crt, ad, irf, cm, cp, ib, it⟩ := s
  cases ctx <;> cases ts <;> cases sa <;> rfl

theorem attachMicrophone_isRunningFlag (s : EngineState) :
    (attachMicrophone s).isRunningFlag = s.isRunningFlag := by
  obtain ⟨ctx, sa, mic, ts, nb, gp, hpf, eqg, cth, crt, ad, irf, cm, cp, ib, it⟩ := s
  cases ctx <;> cases ts <;> cases sa <;> rfl

theorem attachMicrophone_analyserData (s : EngineState) :
    (attachMicrophone s).analyserData = s.analyserData := by
  obtain ⟨ctx, sa, mic, ts, nb, gp, hpf, eqg, cth, crt, ad, irf, cm, cp, ib, it⟩ := s
  cases ctx <;> cases ts <;> cases sa <;> rfl

theorem init_context (s : EngineState) :
    (init s).context = some CtxState.running := by
  obtain ⟨ctx, sa, mic, ts, nb, gp, hpf, eqg, cth, crt, ad, irf, cm, cp, ib, it⟩ := s
  rcases ctx with _ | c
  · cases ts <;> cases sa <;> rfl
  · cases c <;> rfl

theorem init_isRunningFlag (s : EngineState) :
    (init s).isRunningFlag = true := by
  obtain ⟨ctx, sa, mic, ts, nb, gp, hpf, eqg, cth, crt, ad, irf, cm, cp, ib, it⟩ := s
  rcases ctx with _ | c
  · cases ts <;> cases sa <;> rfl
  · cases c <;> rfl

theorem init_currentProfile (s : EngineState) :
    (init s).currentProfile = s.currentProfile := by
  obtain ⟨ctx, sa, mic, ts, nb, gp, hpf, eqg, cth, crt, ad, irf, cm, cp, ib, it⟩ := s
  rcases ctx with _ | c
  · cases ts <;> cases sa <;> rfl
  · cases c <;> rfl

theorem init_currentMode (s : EngineState) :
    (init s).currentMode = s.currentMode := by
  obtain ⟨ctx, sa, mic, ts, nb, gp, hpf, eqg, cth, crt, ad, irf, cm, cp, ib, it⟩ := s
  rcases ctx with _ | c
  · cases ts <;> cases sa <;> rfl
  · cases c <;> rfl

theorem init_isBypassed (s : EngineState) :
    (init s).isBypassed = s.isBypassed := by
  obtain ⟨ctx, sa, mic, ts, nb, gp, hpf, eqg, cth, crt, ad, irf, cm, cp, ib, it⟩ := s
  rcases ctx with _ | c
  · cases ts <;> cases sa <;> rfl
  · cases c <;> rfl

theorem init_nodesBuilt (s : EngineState) :
    (init s).nodesBuilt = true ∨ (init s).nodesBuilt = s.nodesBuilt := by
  obtain ⟨ctx, sa, mic, ts, nb, gp, hpf, eqg, cth, crt, ad, irf, cm, cp, ib, it⟩ := s
  rcases ctx with _ | c
  · exact Or.inl (by cases ts <;> cases sa <;> rfl)
  · exact Or.inr (by cases c <;> rfl)

theorem init_stage_of_some (s : EngineState) (c : CtxState)
    (hc : s.context = some c) : stageParams (init s) = stageParams s := by
  obtain ⟨ctx, sa, mic, ts, nb, gp, hpf, eqg, cth, crt, ad, irf, cm, cp, ib, it⟩ := s
  subst hc
  cases c <;> rfl

theorem init_nodesBuilt_of_some (s : EngineState) (c : CtxState)
    (hc : s.context = some c) : (init s).nodesBuilt = s.nodesBuilt := by
  obtain ⟨ctx, sa, mic, ts, nb, gp, hpf, eqg, cth, crt, ad, irf, cm, cp, ib, it⟩ := s
  subst hc
  cases c <;> rfl

theorem suspend_stage (s : EngineState) :
    stageParams (suspend s) = stageParams s := by
  obtain ⟨ctx, sa, mic, ts, nb, gp, hpf, eqg, cth, crt, ad, irf, cm, cp, ib, it⟩ := s
  rcases ctx with _ | c
  · rfl
  · cases c <;> rfl

theorem suspend_isBypassed (s : EngineState) :
    (suspend s).isBypassed = true := by
  obtain ⟨ctx, sa, mic, ts, nb, gp, hpf, eqg, cth, crt, ad, irf, cm, cp, ib, it⟩ := s
  rcases ctx with _ | c
  · rfl
  · cases c <;> rfl

theorem suspend_isRunningFlag (s : EngineState) :
    (suspend s).isRunningFlag = false := by
  obtain ⟨ctx, sa, mic, ts, nb, gp, hpf, eqg, cth, crt, ad, irf, cm, cp, ib, it⟩ := s
  rcases ctx with _ | c
  · rfl
  · cases c <;> rfl

theorem suspend_nodesBuilt (s : EngineState) :
    (suspend s).nodesBuilt = s.nodesBuilt := by
  obtain ⟨ctx, sa, mic, ts, nb, gp, hpf, eqg, cth, crt, ad, irf, cm, cp, ib, it⟩ := s
  rcases ctx with _ | c
  · rfl
  · cases c <;> rfl

theorem suspend_currentProfile (s : EngineState) :
    (suspend s).currentProfile = s.currentProfile := by
  obtain ⟨ctx, sa, mic, ts, nb, gp, hpf, eqg, cth, crt, ad, irf, cm, cp, ib, it⟩ := s
  rcases ctx with _ | c
  · rfl
  · cases c <;> rfl

theorem suspend_currentMode (s : EngineState) :
    (suspend s).currentMode = s.currentMode := by
  obtain ⟨ctx, sa, mic, ts, nb, gp, hpf, eqg, cth, crt, ad, irf, cm, cp, ib, it⟩ := s
  rcases ctx with _ | c
  · rfl
  · cases c <;> rfl

theorem suspend_analyserData (s : EngineState) :
    (suspend s).analyserData = s.analyserData := by
  obtain ⟨ctx, sa, mic, ts, nb, gp, hpf, eqg, cth, crt, ad, irf, cm, cp, ib, it⟩ := s
  rcases ctx with _ | c
  · rfl
  · cases c <;> rfl

theorem suspend_context_of_running (s : EngineState)
    (hr : s.context = some CtxState.running) :
    (suspend s).context = some CtxState.suspended := by
  obtain ⟨ctx, sa, mic, ts, nb, gp, hpf, eqg, cth, crt, ad, irf, cm, cp, ib, it⟩ := s
  subst hr
  rfl

theorem applySettings_flag_update (s : EngineState) (b : Bool) :
    applySettings { s with isRunningFlag := b } =
      { applySettings s with isRunningFlag := b } := by
  obtain ⟨ctx, sa, mic, ts, nb, gp, hpf, eqg, cth, crt, ad, irf, cm, cp, ib, it⟩ := s
  cases ctx <;> cases cp <;> cases nb <;> rfl

theorem eqGain_target_eq (s : EngineState) (p : HearingProfile) (f : EQFrequency)
    (hc : s.context ≠ none) (hp : s.currentProfile = some p)
    (hb : s.isBypassed = false) (hn : s.nodesBuilt = true) :
    ((applySettings s).eqGains.get f).target = resolveBandGain p s.currentMode f := by
  rw [applySettings_eq s p hc hp hn]
  simp [AParam.setTargetAtTime, hb]

theorem start_isBypassed (s : EngineState) : (start s).isBypassed = false := by
  show (applySettings { init s with isBypassed := false }).isBypassed = false
  rw [applySettings_isBypassed]

theorem start_isRunningFlag (s : EngineState) : (start s).isRunningFlag = true := by
  show (applySettings { init s with isBypassed := false }).isRunningFlag = true
  rw [applySettings_isRunningFlag]
  exact init_isRunningFlag s

theorem start_context (s : EngineState) :
    (start s).context = some CtxState.running := by
  show (applySettings { init s with isBypassed := false }).context = some CtxState.running
  rw [applySettings_context]
  exact init_context s

theorem start_isRunning (s : EngineState) : isRunning (start s) = true := by
  unfold isRunning
  rw [start_isRunningFlag, start_context]
  simp

theorem start_currentProfile (s : EngineState) :
    (start s).currentProfile = s.currentProfile := by
  show (applySettings { init s with isBypassed := false }).currentProfile = s.currentProfile
  rw [applySettings_currentProfile]
  exact init_currentProfile s

theorem start_currentMode (s : EngineState) :
    (start s).currentMode = s.currentMode := by
  show (applySettings { init s with isBypassed := false }).currentMode = s.currentMode
  rw [applySettings_currentMode]
  exact init_currentMode s

theorem init_of_running (t : EngineState)
    (h1 : t.context = some CtxState.running) (h2 : t.isRunningFlag = true) :
    init t = t := by
  obtain ⟨ctx, sa, mic, ts, nb, gp, hpf, eqg, cth, crt, ad, irf, cm, cp, ib, it⟩ := t
  have h1' : ctx = some CtxState.running := h1
  have h2' : irf = true := h2
  subst h1'
  subst h2'
  rfl

theorem set_isBypassed_self (t : EngineState) (h : t.isBypassed = false) :
    ({ t with isBypassed := false } : EngineState) = t := by
  obtain ⟨ctx, sa, mic, ts, nb, gp, hpf, eqg, cth, crt, ad, irf, cm, cp, ib, it⟩ := t
  have h' : ib = false := h
  subst h'
  rfl

theorem start_start (s : EngineState) : start (start s) = start s := by
  show applySettings { init (start s) with isBypassed := false } = start s
  rw [init_of_running (start s) (start_context s) (start_isRunningFlag s)]
  rw [set_isBypassed_self (start s) (start_isBypassed s)]
  exact applySettings_idem { init s with isBypassed := false }

end AudioEngine

open AudioEngine

/-- C1: for every set profile P, environment mode M and band frequency f,
applying settings with bypass off sets the band-f EQ target gain to
clamp(P.eqBands[f] + classBoost(P.name)[f] + preset(M).eqOffsets[f], -18, 18),
with absent map entries defaulting to 0. -/
theorem bandGainResolution_correct (s : EngineState) (p : HearingProfile)
    (f : EQFrequency) (hc : s.context ≠ none) (hp : s.currentProfile = some p)
    (hb : s.isBypassed = false) (hn : s.nodesBuilt = true) :
    ((applySettings s).eqGains.get f).target =
      clamp (-18) 18
        (p.eqBands.get f + specificBoost p.name f
          + ((ENV_PRESETS s.currentMode).eqOffsets.get f).getD 0) := by
  rw [eqGain_target_eq s p f hc hp hb hn]
  rfl

/-- Witness for C1 at a concrete running engine with a keyword-free profile
and the 1000 Hz band. -/
theorem bandGainResolution_correct_witness :
    engineWithProfile.context ≠ none ∧
    engineWithProfile.currentProfile = some customProfile ∧
    engineWithProfile.isBypassed = false ∧
    engineWithProfile.nodesBuilt = true ∧
    ((applySettings engineWithProfile).eqGains.get EQFrequency.f1000).target =
      clamp (-18) 18
        (customProfile.eqBands.get EQFrequency.f1000
          + specificBoost customProfile.name EQFrequency.f1000
          + ((ENV_PRESETS engineWithProfile.currentMode).eqOffsets.get
              EQFrequency.f1000).getD 0) :=
  ⟨by decide, by decide, by decide, by decide,
    bandGainResolution_correct engineWithProfile customProfile EQFrequency.f1000
      (by decide) (by decide) (by decide) (by decide)⟩

/-- C2: applying settings with bypass on yields the bypass-inert record for
every profile and mode: all five band gains target 0, high-pass targets
1 Hz, the compressor targets threshold -60 dB and ratio 1, and the master
gain targets 0. -/
theorem bypassInert_correct (s : EngineState) (p : HearingProfile)
    (hc : s.context ≠ none) (hp : s.currentProfile = some p)
    (hn : s.nodesBuilt = true) (hb : s.isBypassed = true) :
    (∀ f, ((applySettings s).eqGains.get f).target = 0) ∧
    (applySettings s).highpassFreq.target = 1 ∧
    (applySettings s).compressorThreshold.target = -60 ∧
    (applySettings s).compressorRatio.target = 1 ∧
    (applySettings s).gainParam.target = 0 := by
  rw [applySettings_eq s p hc hp hn]
  simp [AParam.setTargetAtTime, hb]

/-- Witness for C2 at the worked-example engine with bypass switched on. -/
theorem bypassInert_correct_witness :
    scenarioBypassedState.context ≠ none ∧
    scenarioBypassedState.currentProfile = some speechProfile ∧
    scenarioBypassedState.nodesBuilt = true ∧
    scenarioBypassedState.isBypassed = true ∧
    ((∀ f, ((applySettings scenarioBypassedState).eqGains.get f).target = 0) ∧
      (applySettings scenarioBypassedState).highpassFreq.target = 1 ∧
      (applySettings scenarioBypassedState).compressorThreshold.target = -60 ∧
      (applySettings scenarioBypassedState).compressorRatio.target = 1 ∧
      (applySettings scenarioBypassedState).gainParam.target = 0) :=
  ⟨by decide, by decide, by decide, by decide,
    bypassInert_correct scenarioBypassedState speechProfile
      (by decide) (by decide) (by decide) (by decide)⟩

/-- C9: setMasterVolume(v) sets the master-gain target to v clamped into
[0, 4]; the resulting target is never negative nor above 4, inputs at or
below 0 give 0 and inputs at or above 4 give 4. -/
theorem masterVolumeClamp_correct (s : EngineState) (v : Rat)
    (hn : s.nodesBuilt = true) (hc : s.context ≠ none) :
    (setMasterVolume v s).gainParam.target = max 0 (min 4 v) ∧
    0 ≤ (setMasterVolume v s).gainParam.target ∧
    (setMasterVolume v s).gainParam.target ≤ 4 ∧
    (v ≤ 0 → (setMasterVolume v s).gainParam.target = 0) ∧
    (4 ≤ v → (setMasterVolume v s).gainParam.target = 4) := by
  have hmain : (setMasterVolume v s).gainParam.target = max 0 (min 4 v) := by
    unfold AudioEngine.setMasterVolume
    rw [if_pos ⟨hn, hc⟩]
    rfl
  refine ⟨hmain, ?_, ?_, ?_, ?_⟩ <;> rw [hmain]
  · exact le_max_left 0 _
  · exact max_le (by norm_num) (min_le_left _ _)
  · intro hv
    rw [min_eq_right (hv.trans (by norm_num)), max_eq_left hv]
  · intro hv
    rw [min_eq_left hv, max_eq_right (by norm_num)]

/-- Witness for C9 at a started engine with input -3. -/
theorem masterVolumeClamp_correct_witness :
    engineOn.nodesBuilt = true ∧
    engineOn.context ≠ none ∧
    ((setMasterVolume (-3) engineOn).gainParam.target = max 0 (min 4 (-3)) ∧
      0 ≤ (setMasterVolume (-3) engineOn).gainParam.target ∧
      (setMasterVolume (-3) engineOn).gainParam.target ≤ 4 ∧
      ((-3 : Rat) ≤ 0 → (setMasterVolume (-3) engineOn).gainParam.target = 0) ∧
      ((4 : Rat) ≤ -3 → (setMasterVolume (-3) engineOn).gainParam.target = 4)) :=
  ⟨by decide, by decide,
    masterVolumeClamp_correct engineOn (-3) (by decide) (by decide)⟩

/-- C10: start() unconditionally clears the bypass flag and suspend()
unconditionally sets it, for every prior state, so bypass enabled before a
suspension is not preserved across suspend-then-start. -/
theorem startSuspendBypass_correct (s : EngineState) :
    (start s).isBypassed = false ∧
    (suspend s).isBypassed = true ∧
    (start (suspend s)).isBypassed = false :=
  ⟨start_isBypassed s, suspend_isBypassed s, start_isBypassed (suspend s)⟩

/-- C3: when no profile has ever been set, applying settings is a benign
no-op (the embedding is total, so no error condition exists): the apply
step itself is the identity, and setEnvironment, setBypass and (on an
initialized engine) start leave every stage parameter unchanged. -/
theorem noProfileNoop_correct (s : EngineState) (m : EnvironmentMode) (b : Bool)
    (hp : s.currentProfile = none) :
    applySettings s = s ∧
    stageParams (setEnvironment m s) = stageParams s ∧
    stageParams (setBypass b s) = stageParams s ∧
    (s.context ≠ none → stageParams (start s) = stageParams s) := by
  refine ⟨applySettings_of_none_profile s hp, ?_, ?_, ?_⟩
  · show stageParams (applySettings { s with currentMode := m }) = stageParams s
    rw [applySettings_of_none_profile { s with currentMode := m } hp]
    rfl
  · show stageParams (applySettings { s with isBypassed := b }) = stageParams s
    rw [applySettings_of_none_profile { s with isBypassed := b } hp]
    rfl
  · intro hc
    rcases hx : s.context with _ | c
    · exact absurd hx hc
    have hpi : ({ init s with isBypassed := false } : EngineState).currentProfile = none := by
      show (init s).currentProfile = none
      rw [init_currentProfile]
      exact hp
    show stageParams (applySettings { init s with isBypassed := false }) = stageParams s
    rw [applySettings_of_none_profile _ hpi]
    show stageParams (init s) = stageParams s
    exact init_stage_of_some s c hx

/-- Witness for C3 at a started engine on which no profile was ever set. -/
theorem noProfileNoop_correct_witness :
    engineOn.currentProfile = none ∧
    (applySettings engineOn = engineOn ∧
      stageParams (setEnvironment EnvironmentMode.NOISY engineOn) = stageParams engineOn ∧
      stageParams (setBypass true engineOn) = stageParams engineOn ∧
      (engineOn.context ≠ none → stageParams (start engineOn) = stageParams engineOn)) :=
  ⟨by decide, noProfileNoop_correct engineOn EnvironmentMode.NOISY true (by decide)⟩

/-- C4 counterexample: a reachable Running engine is destroyed, after which
a single start() call returns the very same instance to Running — so
Destroyed is not terminal. -/
theorem destroyTerminal_cex :
    isRunning runningState = true ∧
    isRunning (destroy runningState) = false ∧
    isRunning (run [Op.start] (destroy runningState)) = true := by
  refine ⟨by decide, by decide, ?_⟩
  show isRunning (start (destroy runningState)) = true
  exact start_isRunning _

/-- C4 amended: destroy() does stop the engine (it is not Running
afterward), but the state is not terminal: from any state, destroy()
followed by start() rebuilds the graph and returns the same instance to
Running (the app relies on this when the singleton engine is reused across
logout/login). -/
theorem destroyRestart_amended (s : EngineState) :
    isRunning (destroy s) = false ∧ isRunning (start (destroy s)) = true :=
  ⟨rfl, start_isRunning (destroy s)⟩

/-- C6: switching to the test source and back never touches any stage
parameter (EQ-band, compressor, high-pass and master-gain targets and live
values), nor the analyser stage and its data: only the source head of the
graph changes. -/
theorem sourceSwitchPreserves_correct (s : EngineState) :
    stageParams (stopTestAudio (startTestAudio s)) = stageParams s ∧
    (stopTestAudio (startTestAudio s)).nodesBuilt = s.nodesBuilt ∧
    (stopTestAudio (startTestAudio s)).analyserData = s.analyserData := by
  obtain ⟨ctx, sa, mic, ts, nb, gp, hpf, eqg, cth, crt, ad, irf, cm, cp, ib, it⟩ := s
  cases ctx <;> cases it <;> cases ts <;> cases sa <;> exact ⟨rfl, rfl, rfl⟩

/-- C7 counterexample: a running engine captures a non-silent spectrum,
then is suspended; the snapshot query still returns the stale non-zero
buffer — both while Suspended and after destroy() — rather than a
silence-equivalent one. -/
theorem staleSpectrum_cex :
    isRunning capturedSuspendedState = false ∧
    capturedSuspendedState.context = some CtxState.suspended ∧
    getAnalyser capturedState = some [200, 180, 90] ∧
    getAnalyser capturedSuspendedState = some [200, 180, 90] ∧
    getAnalyser (destroy capturedSuspendedState) = some [200, 180, 90] ∧
    ¬ (∀ x ∈ [200, 180, 90], x = (0 : Nat)) := by
  decide

/-- C7 amended: while the engine is Suspended or Destroyed the snapshot
query returns the analyser's retained buffer unchanged — suspend() and
destroy() never clear it, and no analyser refresh happens while the
context is not running — so stale pre-suspension data is what the caller
gets (rendering silence instead is left to the caller, as the visualizer
does with its idle line). -/
theorem staleSpectrum_amended (s : EngineState) (d : List Nat)
    (h : s.context ≠ some CtxState.running) :
    getAnalyser (suspend s) = getAnalyser s ∧
    getAnalyser (destroy s) = getAnalyser s ∧
    audioFrame d s = s := by
  refine ⟨?_, rfl, ?_⟩
  · unfold AudioEngine.getAnalyser
    rw [suspend_nodesBuilt, suspend_analyserData]
  · unfold AudioEngine.audioFrame
    rw [if_neg fun hcon => h hcon.1]

/-- Witness for C7 amended at the suspended engine holding stale data. -/
theorem staleSpectrum_amended_witness :
    capturedSuspendedState.context ≠ some CtxState.running ∧
    (getAnalyser (suspend capturedSuspendedState) = getAnalyser capturedSuspendedState ∧
      getAnalyser (destroy capturedSuspendedState) = getAnalyser capturedSuspendedState ∧
      audioFrame [1, 2] capturedSuspendedState = capturedSuspendedState) :=
  ⟨by decide, staleSpectrum_amended capturedSuspendedState [1, 2] (by decide)⟩

/-- C5 counterexample: a reachable Running state with bypass switched on is
not restored by suspend-then-start — start() forces bypass off and
re-resolves the stage parameters (band 2000 Hz: 0 dB before, 14 dB after)
— and start() on that same Running state changes the engine state. -/
theorem suspendRestore_cex :
    isRunning bypassedRunningState = true ∧
    (bypassedRunningState.eqGains.get EQFrequency.f2000).target = 0 ∧
    ((start (suspend bypassedRunningState)).eqGains.get EQFrequency.f2000).target = 14 ∧
    stageParams (start (suspend bypassedRunningState)) ≠ stageParams bypassedRunningState ∧
    start bypassedRunningState ≠ bypassedRunningState := by
  have h0 : (bypassedRunningState.eqGains.get EQFrequency.f2000).target = 0 := by decide
  have hc0 : bypassedRunningState.context = some CtxState.running := by decide
  have hsc : (suspend bypassedRunningState).context = some CtxState.suspended :=
    suspend_context_of_running _ hc0
  have h14 : ((start (suspend bypassedRunningState)).eqGains.get EQFrequency.f2000).target = 14 := by
    have hu_prof : ({ init (suspend bypassedRunningState) with isBypassed := false } :
        EngineState).currentProfile = some speechProfile := by
      show (init (suspend bypassedRunningState)).currentProfile = some speechProfile
      rw [init_currentProfile, suspend_currentProfile]
      decide
    have hu_ctx : ({ init (suspend bypassedRunningState) with isBypassed := false } :
        EngineState).context ≠ none := by
      show (init (suspend bypassedRunningState)).context ≠ none
      rw [init_context]
      simp
    have hu_nodes : ({ init (suspend bypassedRunningState) with isBypassed := false } :
        EngineState).nodesBuilt = true := by
      show (init (suspend bypassedRunningState)).nodesBuilt = true
      rw [init_nodesBuilt_of_some _ CtxState.suspended hsc, suspend_nodesBuilt]
      decide
    have he := eqGain_target_eq ({ init (suspend bypassedRunningState) with isBypassed := false })
        speechProfile EQFrequency.f2000 hu_ctx hu_prof rfl hu_nodes
    have hm : ({ init (suspend bypassedRunningState) with isBypassed := false } :
        EngineState).currentMode = EnvironmentMode.QUIET := by
      show (init (suspend bypassedRunningState)).currentMode = EnvironmentMode.QUIET
      rw [init_currentMode, suspend_currentMode]
      decide
    rw [hm] at he
    have he' : ((start (suspend bypassedRunningState)).eqGains.get EQFrequency.f2000).target
        = resolveBandGain speechProfile EnvironmentMode.QUIET EQFrequency.f2000 := he
    rw [he']
    unfold AudioEngine.resolveBandGain
    have h6 : speechProfile.eqBands.get EQFrequency.f2000 = 6 := by decide
    have hb8 : specificBoost speechProfile.name EQFrequency.f2000 = 8 := by decide
    have hz : ((ENV_PRESETS EnvironmentMode.QUIET).eqOffsets.get EQFrequency.f2000).getD 0 = 0 := by
      decide
    rw [h6, hb8, hz]
    unfold clamp
    have hsum : (6 : Rat) + 8 + 0 = 14 := by norm_num
    rw [hsum, min_eq_right (by norm_num : (14 : Rat) ≤ 18),
      max_eq_right (by norm_num : (-18 : Rat) ≤ 14)]
  refine ⟨by decide, h0, h14, ?_, ?_⟩
  · intro hEq
    have hproj : ((start (suspend bypassedRunningState)).eqGains.get EQFrequency.f2000).target
        = (bypassedRunningState.eqGains.get EQFrequency.f2000).target :=
      congrArg (fun q : StageParams => (q.eq.get EQFrequency.f2000).target) hEq
    rw [h14, h0] at hproj
    norm_num at hproj
  · intro hEq
    have hbp : (start bypassedRunningState).isBypassed = bypassedRunningState.isBypassed :=
      congrArg EngineState.isBypassed hEq
    rw [start_isBypassed] at hbp
    have ht : bypassedRunningState.isBypassed = true := by decide
    rw [ht] at hbp
    exact Bool.noConfusion hbp

/-- C5 amended: restoration across suspend-then-start holds exactly for
Running states whose stage parameters are already the applied resolution
with bypass off (no interleaved setBypass(true)/setMasterVolume override):
then suspend();start() restores identical stage parameters, and start is
idempotent as an operation (start ∘ start = start) on every state. -/
theorem suspendRestore_amended (s : EngineState)
    (hr : s.context = some CtxState.running) (hb : s.isBypassed = false)
    (hfix : applySettings s = s) :
    stageParams (start (suspend s)) = stageParams s ∧
    start (start s) = start s := by
  constructor
  · have key : start (suspend s) = applySettings { s with isRunningFlag := true } := by
      show applySettings { init (suspend s) with isBypassed := false } = _
      have hstate : ({ init (suspend s) with isBypassed := false } : EngineState)
          = { s with isRunningFlag := true } := by
        obtain ⟨ctx, sa, mic, ts, nb, gp, hpf, eqg, cth, crt, ad, irf, cm, cp, ib, it⟩ := s
        have hr' : ctx = some CtxState.running := hr
        have hb' : ib = false := hb
        subst hr'
        subst hb'
        rfl
      rw [hstate]
    rw [key, applySettings_flag_update]
    show stageParams (applySettings s) = stageParams s
    rw [hfix]
  · exact start_start s

/-- Witness for C5 amended at a started engine whose settings were last
applied by setProfile (bypass off, parameters at their resolved values). -/
theorem suspendRestore_amended_witness :
    engineWithProfile.context = some CtxState.running ∧
    engineWithProfile.isBypassed = false ∧
    applySettings engineWithProfile = engineWithProfile ∧
    (stageParams (start (suspend engineWithProfile)) = stageParams engineWithProfile ∧
      start (start engineWithProfile) = start engineWithProfile) :=
  ⟨by decide, by decide,
    applySettings_idem { engineOn with currentProfile := some customProfile },
    suspendRestore_amended engineWithProfile (by decide) (by decide)
      (applySettings_idem { engineOn with currentProfile := some customProfile })⟩

/-- C8: the spec's worked example — profile "Speech Focus Profile" with
band 2000 Hz at 6 dB, mode CONVERSATION, bypass off — resolves the
2000 Hz band to clamp(6 + 8 + 8, -18, 18) = 18: the speech boost and the
CONVERSATION offset at 2000 Hz are both 8 dB and the 22 dB sum clamps. -/
theorem speechScenario_correct :
    (scenarioState.eqGains.get EQFrequency.f2000).target = 18 ∧
    specificBoost speechProfile.name EQFrequency.f2000 = 8 ∧
    ((ENV_PRESETS EnvironmentMode.CONVERSATION).eqOffsets.get EQFrequency.f2000).getD 0 = 8 ∧
    clamp (-18) 18 (6 + 8 + 8) = 18 := by
  have hclamp : clamp (-18) 18 ((6 : Rat) + 8 + 8) = 18 := by
    unfold clamp
    have h22 : (6 : Rat) + 8 + 8 = 22 := by norm_num
    rw [h22, min_eq_left (by norm_num : (18 : Rat) ≤ 22),
      max_eq_right (by norm_num : (-18 : Rat) ≤ 18)]
  refine ⟨?_, by decide, by decide, hclamp⟩
  have he := eqGain_target_eq
      ({ setProfile speechProfile (start initState) with
          currentMode := EnvironmentMode.CONVERSATION })
      speechProfile EQFrequency.f2000 (by decide) (by decide) (by decide) (by decide)
  have he' : (scenarioState.eqGains.get EQFrequency.f2000).target
      = resolveBandGain speechProfile EnvironmentMode.CONVERSATION EQFrequency.f2000 := he
  rw [he']
  unfold AudioEngine.resolveBandGain
  have h6 : speechProfile.eqBands.get EQFrequency.f2000 = 6 := by decide
  have hb8 : specificBoost speechProfile.name EQFrequency.f2000 = 8 := by decide
  have ho8 : ((ENV_PRESETS EnvironmentMode.CONVERSATION).eqOffsets.get EQFrequency.f2000).getD 0 = 8 := by
    decide
  rw [h6, hb8, ho8]
  exact hclamp
